import Mathlib

/-
Verification of the wasmi execution core against its specification.

The development shallowly embeds the relevant parts of the interpreter:

  * `src/crates/wasmi/src/engine/executor/instrs.rs`
    (new register-machine dispatch loop, runtime-signature mixing,
     fused helpers, shift helper),
  * `src/wasmi_v1/src/engine/inner/execute/executor.rs`
    (v1 executor: effective addresses, loads/stores, indirect calls,
     branch tables, select, memory.grow),
  * `src/crates/wasmi/src/engine/translator/utils.rs`
    (translation-time shift-amount folding).

Machine integers are modelled as `Nat` (bit patterns, reduced modulo
`2^32` or `2^64` exactly where the Rust code wraps or casts) and `Int`
(signed values).  Fallible operations return `Except TrapCode`.
Operations whose Rust source lives outside the provided source tree
(wasmi_core `UntypedVal` kernels, `Table::get`, `Memory::grow`,
the `unreachable_unchecked!` macro, `StoreInner::update_runtime_signature`)
are modelled from the specification text and are marked as such in their
doc comments.
-/

namespace Wasmi

/-- The closed enumeration of typed trap kinds of spec section 4.10.
Modelled from the spec: the Rust `TrapCode` enum lives in `wasmi_core`,
which is not part of the provided source tree; the spec's canonical names
are used (the v1 sources spell `IndirectCallToNull` as `ElemUninitialized`
and `BadSignature` as `UnexpectedSignature`). -/
inductive TrapCode
  | UnreachableCodeReached
  | MemoryAccessOutOfBounds
  | TableAccessOutOfBounds
  | IndirectCallToNull
  | BadSignature
  | IntegerOverflow
  | IntegerDivisionByZero
  | InvalidConversionToInteger
  | StackOverflow
  | OutOfFuel
  | GrowthOperationLimited
  deriving DecidableEq, Repr

/-- A 64-bit untyped cell, represented by its bit pattern as a `Nat`
below `2^64` (spec section 3: "A 64-bit cell"). -/
abbrev UntypedVal := Nat

/-- Reads an `i32` out of a cell: the low 32 bits of the bit pattern.
Modelled from the spec (section 3, Untyped Value): `i32::from(UntypedVal)`
in `wasmi_core` truncates the 64-bit cell to its low 32 bits. -/
def UntypedVal.lo32 (x : UntypedVal) : Nat := x % 2 ^ 32

/-- Stores a 32-bit pattern into a cell, zero-extended.
Modelled from the spec (section 3, Untyped Value): `UntypedVal::from(u32)`
zero-extends the 32-bit pattern into the 64-bit cell. -/
def UntypedVal.ofU32 (x : Nat) : UntypedVal := x % 2 ^ 32

/-- Converts a `bool` into a cell: `true` maps to `1`, `false` to `0`.
Modelled from the spec: `UntypedVal::from(bool)` in `wasmi_core`. -/
def UntypedVal.ofBool (b : Bool) : UntypedVal := if b then 1 else 0

/-- The `i32.and` kernel: bitwise AND of the `i32` views of both cells,
result zero-extended.  Modelled from the spec (section 3, Untyped Value
operations; `UntypedVal::i32_and` of `wasmi_core` is not in the source
tree). -/
def UntypedVal.i32_and (x y : UntypedVal) : UntypedVal :=
  UntypedVal.ofU32 (Nat.land x.lo32 y.lo32)

/-- The `i32.or` kernel: bitwise OR of the `i32` views of both cells,
result zero-extended.  Modelled from the spec, see `UntypedVal.i32_and`. -/
def UntypedVal.i32_or (x y : UntypedVal) : UntypedVal :=
  UntypedVal.ofU32 (Nat.lor x.lo32 y.lo32)

/-- The `i32.xor` kernel: bitwise XOR of the `i32` views of both cells,
result zero-extended.  Modelled from the spec, see `UntypedVal.i32_and`. -/
def UntypedVal.i32_xor (x y : UntypedVal) : UntypedVal :=
  UntypedVal.ofU32 (Nat.xor x.lo32 y.lo32)

/-- The `i32.eqz` kernel: yields the cell `1` when the `i32` view of the
cell is `0`, else the cell `0`.  Modelled from the spec, see
`UntypedVal.i32_and`. -/
def UntypedVal.i32_eqz (x : UntypedVal) : UntypedVal :=
  UntypedVal.ofBool (x.lo32 == 0)

/-- Fused `i32.and` + `i32.eqz` helper of the executor.
Translated from `UntypedValueExt for UntypedVal` in
`src/crates/wasmi/src/engine/executor/instrs.rs`:
`(i32::from(UntypedVal::i32_and(x, y)) == 0).into()`. -/
def UntypedVal.i32_and_eqz (x y : UntypedVal) : UntypedVal :=
  UntypedVal.ofBool ((UntypedVal.i32_and x y).lo32 == 0)

/-- Fused `i32.or` + `i32.eqz` helper of the executor.
Translated from `UntypedValueExt for UntypedVal` in
`src/crates/wasmi/src/engine/executor/instrs.rs`:
`(i32::from(UntypedVal::i32_or(x, y)) == 0).into()`. -/
def UntypedVal.i32_or_eqz (x y : UntypedVal) : UntypedVal :=
  UntypedVal.ofBool ((UntypedVal.i32_or x y).lo32 == 0)

/-- Fused `i32.xor` + `i32.eqz` helper of the executor.
Translated from `UntypedValueExt for UntypedVal` in
`src/crates/wasmi/src/engine/executor/instrs.rs`:
`(i32::from(UntypedVal::i32_xor(x, y)) == 0).into()`. -/
def UntypedVal.i32_xor_eqz (x y : UntypedVal) : UntypedVal :=
  UntypedVal.ofBool ((UntypedVal.i32_xor x y).lo32 == 0)

theorem UntypedVal.lo32_ofU32 (x : Nat) :
    (UntypedVal.ofU32 x).lo32 = x % 2 ^ 32 := by
  simp [UntypedVal.ofU32, UntypedVal.lo32, Nat.mod_mod_of_dvd]

end Wasmi

/-- C10: for all 64-bit cells `x` and `y`, the fused helper
`i32_and_eqz(x, y)` equals the composition of `i32.eqz` with `i32.and`,
and likewise `i32_or_eqz` with `i32.or` and `i32_xor_eqz` with `i32.xor`. -/
theorem Wasmi.fused_eqz_is_composition (x y : Wasmi.UntypedVal) :
    Wasmi.UntypedVal.i32_and_eqz x y
        = Wasmi.UntypedVal.i32_eqz (Wasmi.UntypedVal.i32_and x y)
      ∧ Wasmi.UntypedVal.i32_or_eqz x y
        = Wasmi.UntypedVal.i32_eqz (Wasmi.UntypedVal.i32_or x y)
      ∧ Wasmi.UntypedVal.i32_xor_eqz x y
        = Wasmi.UntypedVal.i32_eqz (Wasmi.UntypedVal.i32_xor x y) := by
  refine ⟨?_, ?_, ?_⟩ <;> rfl

namespace WasmiV1

open Wasmi

/-- Effective address of a v1 linear-memory access.
Translated from `Executor::effective_address` in
`src/wasmi_v1/src/engine/inner/execute/executor.rs`:
`offset.into_inner().checked_add(u32::from(ptr)).map(|a| a as usize)
 .ok_or(TrapCode::MemoryAccessOutOfBounds)`.
`offset` is the `u32` static offset; the pointer contributes the low
32 bits of its cell; the checked `u32` addition traps on wrap-around. -/
def effective_address (offset : Nat) (ptr : UntypedVal) : Except TrapCode Nat :=
  if offset + ptr.lo32 < 2 ^ 32 then Except.ok (offset + ptr.lo32)
  else Except.error TrapCode.MemoryAccessOutOfBounds

/-- A linear memory instance: its raw bytes. -/
abbrev Memory := List Nat

/-- Reads `n` bytes starting at `address`.
Modelled from the spec (section 4.5): the byte-buffer `read` used by
`Executor::load_bytes` lives in `wasmi_core` (not in the source tree);
it traps with `MemoryAccessOutOfBounds` when the accessed range
`address..address + n` is not contained in memory and otherwise yields
exactly those bytes. -/
def memoryRead (mem : Memory) (address n : Nat) : Except TrapCode (List Nat) :=
  if address + n ≤ mem.length then Except.ok ((mem.drop address).take n)
  else Except.error TrapCode.MemoryAccessOutOfBounds

/-- Writes `bytes` starting at `address`.
Modelled from the spec (section 4.5): the byte-buffer `write` used by
`Executor::store_bytes` lives in `wasmi_core` (not in the source tree);
it traps with `MemoryAccessOutOfBounds` when the written range is not
contained in memory and otherwise replaces exactly those bytes. -/
def memoryWrite (mem : Memory) (address : Nat) (bytes : List Nat) :
    Except TrapCode Memory :=
  if address + bytes.length ≤ mem.length then
    Except.ok (mem.take address ++ bytes ++ mem.drop (address + bytes.length))
  else Except.error TrapCode.MemoryAccessOutOfBounds

/-- Loads the `n`-byte buffer of a v1 load instruction.
Translated from `Executor::load_bytes` in
`src/wasmi_v1/src/engine/inner/execute/executor.rs`: resolve the pointer
cell, compute the effective address, then read the buffer from the
default memory. -/
def load_bytes (mem : Memory) (ptr : UntypedVal) (offset n : Nat) :
    Except TrapCode (List Nat) :=
  match effective_address offset ptr with
  | Except.error e => Except.error e
  | Except.ok address => memoryRead mem address n

/-- Stores the byte buffer of a v1 store instruction.
Translated from `Executor::store_bytes` in
`src/wasmi_v1/src/engine/inner/execute/executor.rs`: resolve the pointer
cell, compute the effective address, then write the buffer to the
default memory. -/
def store_bytes (mem : Memory) (ptr : UntypedVal) (offset : Nat)
    (bytes : List Nat) : Except TrapCode Memory :=
  match effective_address offset ptr with
  | Except.error e => Except.error e
  | Except.ok address => memoryWrite mem address bytes

/-- Little-endian decoding of a byte list into a value.
Modelled from the spec (section 4.5 "read little-endian bytes"):
`LittleEndianConvert::from_le_bytes` of `wasmi_core`. -/
def fromLeBytes : List Nat → Nat
  | [] => 0
  | b :: bs => b % 256 + 256 * fromLeBytes bs

/-- Little-endian encoding of a value into `n` bytes.
Modelled from the spec (section 4.5 "little-endian encode"):
`LittleEndianConvert::into_le_bytes` of `wasmi_core`. -/
def toLeBytes : Nat → Nat → List Nat
  | 0, _ => []
  | Nat.succ m, value => value % 256 :: toLeBytes m (value / 256)

/-- Executes a v1 load of access size `n`: read the buffer, decode it
little-endian, and yield the result cell.
Translated from `Executor::exec_load` in
`src/wasmi_v1/src/engine/inner/execute/executor.rs`. -/
def exec_load (mem : Memory) (ptr : UntypedVal) (offset n : Nat) :
    Except TrapCode UntypedVal :=
  match load_bytes mem ptr offset n with
  | Except.error e => Except.error e
  | Except.ok buffer => Except.ok (fromLeBytes buffer)

/-- Executes a v1 store of access size `n`: encode the value cell
little-endian into `n` bytes and write them.
Translated from `Executor::exec_store` (and its `_wrap` variants, whose
wrapping is the truncation performed by encoding only `n` bytes) in
`src/wasmi_v1/src/engine/inner/execute/executor.rs`. -/
def exec_store (mem : Memory) (ptr : UntypedVal) (offset n : Nat)
    (value : UntypedVal) : Except TrapCode Memory :=
  store_bytes mem ptr offset (toLeBytes n value)

theorem toLeBytes_length (n value : Nat) : (toLeBytes n value).length = n := by
  induction n generalizing value with
  | zero => rfl
  | succ m ih => simp [toLeBytes, ih]

end WasmiV1

/-- C3: for every load and store with effective address
`eff = u64(ptr_u32) + u64(static_offset)`, the instruction traps with
`MemoryAccessOutOfBounds` if and only if `eff + access_size` exceeds the
memory size in bytes; otherwise it accesses exactly the `access_size`
bytes at `eff` in little-endian order and no trap is raised. -/
theorem WasmiV1.load_store_bounds
    (mem : WasmiV1.Memory) (ptr : Wasmi.UntypedVal) (offset n : Nat)
    (value : Wasmi.UntypedVal)
    (hoff : offset < 2 ^ 32) (hn : 1 ≤ n) (hmem : mem.length ≤ 2 ^ 32) :
    (WasmiV1.exec_load mem ptr offset n
        = Except.error Wasmi.TrapCode.MemoryAccessOutOfBounds
      ↔ mem.length < ptr.lo32 + offset + n)
    ∧ (ptr.lo32 + offset + n ≤ mem.length →
        WasmiV1.exec_load mem ptr offset n
          = Except.ok
              (WasmiV1.fromLeBytes ((mem.drop (ptr.lo32 + offset)).take n)))
    ∧ (WasmiV1.exec_store mem ptr offset n value
        = Except.error Wasmi.TrapCode.MemoryAccessOutOfBounds
      ↔ mem.length < ptr.lo32 + offset + n)
    ∧ (ptr.lo32 + offset + n ≤ mem.length →
        WasmiV1.exec_store mem ptr offset n value
          = Except.ok
              (mem.take (ptr.lo32 + offset) ++ WasmiV1.toLeBytes n value
                ++ mem.drop (ptr.lo32 + offset + n))) := by
  have hlen : (WasmiV1.toLeBytes n value).length = n :=
    WasmiV1.toLeBytes_length n value
  unfold WasmiV1.exec_load WasmiV1.exec_store WasmiV1.load_bytes
    WasmiV1.store_bytes WasmiV1.effective_address WasmiV1.memoryRead
    WasmiV1.memoryWrite
  by_cases hovf : offset + ptr.lo32 < 2 ^ 32
  · by_cases hfit : offset + ptr.lo32 + n ≤ mem.length
    · simp only [if_pos hovf, hlen, if_pos hfit]
      refine ⟨?_, ?_, ?_, ?_⟩
      · constructor
        · intro h; cases h
        · intro h; omega
      · intro h
        have : offset + ptr.lo32 = ptr.lo32 + offset := Nat.add_comm _ _
        rw [this]
      · constructor
        · intro h; cases h
        · intro h; omega
      · intro h
        have : offset + ptr.lo32 = ptr.lo32 + offset := Nat.add_comm _ _
        rw [this]
    · simp only [if_pos hovf, hlen, if_neg hfit]
      refine ⟨?_, ?_, ?_, ?_⟩
      · constructor
        · intro _; omega
        · intro _; trivial
      · intro h; omega
      · constructor
        · intro _; omega
        · intro _; trivial
      · intro h; omega
  · simp only [if_neg hovf]
    have hbig : mem.length < ptr.lo32 + offset + n := by omega
    refine ⟨?_, ?_, ?_, ?_⟩
    · exact ⟨fun _ => hbig, fun _ => trivial⟩
    · intro h; omega
    · exact ⟨fun _ => hbig, fun _ => trivial⟩
    · intro h; omega

/-- Closed witness for C3: a four-byte memory, pointer cell `1`,
static offset `1`, access size `2` is in bounds and loads the bytes at
addresses `2` and `3` little-endian. -/
theorem WasmiV1.load_store_bounds_witness :
    (1 : Nat) ≤ 2
    ∧ ([5, 6, 7, 8] : WasmiV1.Memory).length ≤ 2 ^ 32
    ∧ WasmiV1.exec_load [5, 6, 7, 8] 1 1 2 = Except.ok 2055 := by
  have h :=
    WasmiV1.load_store_bounds [5, 6, 7, 8] 1 1 2 0 (by decide)
      (by decide) (by simp)
  refine ⟨by decide, by simp, ?_⟩
  have h2 := h.2.1 (by decide)
  rw [h2]
  rfl

namespace WasmiV1

/-- The v1 frame register file: register index to cell. -/
abbrev RegFile := Nat → Wasmi.UntypedVal

/-- Functional update of one register, used to model
`Executor::set_register` (`self.frame.regs.set(register, new_value)`). -/
def setReg (regs : RegFile) (r : Nat) (v : Wasmi.UntypedVal) : RegFile :=
  fun i => if i = r then v else regs i

/-- A v1 `ExecProvider`: either a register or an (already resolved)
constant-pool immediate.  Translated from
`Executor::load_provider` in
`src/wasmi_v1/src/engine/inner/execute/executor.rs`, which decodes a
provider using either `get_register` or `resolve_cref`. -/
inductive ExecProvider
  | register (r : Nat)
  | immediate (v : Wasmi.UntypedVal)
  deriving DecidableEq

/-- Resolves an `ExecProvider` to its cell value; translated from
`Executor::load_provider`. -/
def load_provider (regs : RegFile) : ExecProvider → Wasmi.UntypedVal
  | ExecProvider.register r => regs r
  | ExecProvider.immediate v => v

/-- The per-frame mutable execution state of the v1 executor that the
register-level instructions touch: register file and program counter. -/
structure V1State where
  regs : RegFile
  pc : Nat

/-- Branch-table dispatch of the v1 executor.
Translated from `Executor::exec_br_table` in
`src/wasmi_v1/src/engine/inner/execute/executor.rs`:
`index = u32::from(get_register(case)) as usize;
 max_index = len_targets - 1;
 normalized_index = min(index, max_index);
 pc += normalized_index + 1`. -/
def exec_br_table (s : V1State) (case len_targets : Nat) : V1State :=
  let index := (s.regs case).lo32
  let max_index := len_targets - 1
  let normalized_index := min index max_index
  { s with pc := s.pc + (normalized_index + 1) }

/-- Select instruction of the v1 executor.
Translated from `Executor::exec_select` in
`src/wasmi_v1/src/engine/inner/execute/executor.rs`: load the condition
cell, pick `if_true` when it differs from the zero cell and `if_false`
otherwise, write the chosen value to `result`, advance the pc. -/
def exec_select (s : V1State) (result condition : Nat)
    (if_true if_false : ExecProvider) : V1State :=
  let cond := s.regs condition
  let case :=
    if cond ≠ 0 then load_provider s.regs if_true
    else load_provider s.regs if_false
  { regs := setReg s.regs result case, pc := s.pc + 1 }

/-- A function entry of a table: its deduplicated function type and
whether it is an internal (compiled) or imported (host) function. -/
structure FuncEntry where
  signature : Nat
  isInternal : Bool
  deriving DecidableEq

/-- A table instance: its elements. -/
abbrev Table := List (Option FuncEntry)

/-- Reads a table element.  Modelled from the spec (section 4.4):
`Table::get` lives outside the provided source tree; it fails when
`index` is out of the table's range and otherwise yields the (possibly
null) element. -/
def tableGet (table : Table) (index : Nat) : Except Unit (Option FuncEntry) :=
  if h : index < table.length then Except.ok (table.get ⟨index, h⟩)
  else Except.error ()

/-- Indirect call of the v1 executor.
Translated from `Executor::exec_call_indirect` in
`src/wasmi_v1/src/engine/inner/execute/executor.rs`:
read the table element at `index` (trapping `TableAccessOutOfBounds`
when `Table::get` fails and `IndirectCallToNull` — spelled
`ElemUninitialized` in the v1 sources — when the element is null),
then compare the callee's deduplicated signature with the expected one
(trapping `BadSignature`, spelled `UnexpectedSignature`), and otherwise
hand the callee over to `call_func` for dispatch. -/
def exec_call_indirect (table : Table) (expected : Nat)
    (indexCell : Wasmi.UntypedVal) : Except Wasmi.TrapCode FuncEntry :=
  let index := indexCell.lo32
  match tableGet table index with
  | Except.error _ => Except.error Wasmi.TrapCode.TableAccessOutOfBounds
  | Except.ok none => Except.error Wasmi.TrapCode.IndirectCallToNull
  | Except.ok (some callee) =>
      if callee.signature ≠ expected then
        Except.error Wasmi.TrapCode.BadSignature
      else Except.ok callee

/-- A linear-memory instance at page granularity, for `memory.grow`. -/
structure MemInst where
  pages : Nat
  maxPages : Nat
  deriving DecidableEq

/-- Grows a memory by `additional` pages.  Modelled from the spec
(sections 4.8 and 6.2): `Memory::grow` lives outside the provided
source tree; growth beyond the configured maximum or denied by the
resource limiter fails and leaves the memory unchanged; on success the
old size in pages is returned. -/
def memoryGrow (limiterAllows : Bool) (mem : MemInst) (additional : Nat) :
    Except Unit (Nat × MemInst) :=
  if mem.pages + additional ≤ mem.maxPages then
    if limiterAllows then
      Except.ok (mem.pages, { mem with pages := mem.pages + additional })
    else Except.error ()
  else Except.error ()

/-- The state touched by the v1 `memory.grow` instruction. -/
structure GrowState where
  regs : RegFile
  pc : Nat
  mem : MemInst

/-- The `memory.grow` instruction of the v1 executor.
Translated from `Executor::exec_memory_grow` in
`src/wasmi_v1/src/engine/inner/execute/executor.rs`: resolve the
amount provider to a `u32`, attempt the growth, obtain the old size in
pages on success and `u32::MAX` on failure, write that value to the
result register, and advance the pc.  The source function is
infallible: it never returns a trap. -/
def exec_memory_grow (limiterAllows : Bool) (s : GrowState) (result : Nat)
    (amount : ExecProvider) : GrowState :=
  let amountv := (load_provider s.regs amount).lo32
  match memoryGrow limiterAllows s.mem amountv with
  | Except.ok (oldSize, memNew) =>
      { regs := setReg s.regs result (Wasmi.UntypedVal.ofU32 oldSize)
        pc := s.pc + 1
        mem := memNew }
  | Except.error _ =>
      { regs := setReg s.regs result (Wasmi.UntypedVal.ofU32 (2 ^ 32 - 1))
        pc := s.pc + 1
        mem := s.mem }

end WasmiV1

/-- C5: for every branch-table instruction with at least one target and
any `u32` index value, execution computes
`i = min(unsigned(index), len_targets - 1)` and advances the program
counter to the `i`-th following target descriptor; every out-of-range
index selects the default (last) target.  Registers are untouched. -/
theorem WasmiV1.br_table_clamps (s : WasmiV1.V1State) (case len_targets : Nat)
    (h : 1 ≤ len_targets) :
    (WasmiV1.exec_br_table s case len_targets).pc
        = s.pc + 1 + min (s.regs case).lo32 (len_targets - 1)
    ∧ ((s.regs case).lo32 < len_targets →
        (WasmiV1.exec_br_table s case len_targets).pc
          = s.pc + 1 + (s.regs case).lo32)
    ∧ (len_targets ≤ (s.regs case).lo32 →
        (WasmiV1.exec_br_table s case len_targets).pc
          = s.pc + 1 + (len_targets - 1))
    ∧ (WasmiV1.exec_br_table s case len_targets).regs = s.regs := by
  have key : (WasmiV1.exec_br_table s case len_targets).pc
      = s.pc + (min (s.regs case).lo32 (len_targets - 1) + 1) := rfl
  refine ⟨by omega, ?_, ?_, rfl⟩
  · intro hlt
    omega
  · intro hge
    omega

/-- Closed witness for C5: with three targets and index value `7`, the
pc advances by `3` words, selecting the default (last) target. -/
theorem WasmiV1.br_table_clamps_witness :
    (1 : Nat) ≤ 3
    ∧ (WasmiV1.exec_br_table ⟨fun _ => 7, 100⟩ 0 3).pc = 103 := by
  have h := WasmiV1.br_table_clamps ⟨fun _ => 7, 100⟩ 0 3 (by decide)
  refine ⟨by decide, ?_⟩
  have h3 := h.2.2.1 (by decide)
  rw [h3]

/-- C8: for every v1 select instruction and every condition value, the
result register receives the `if_true` value when the condition cell is
nonzero and the `if_false` value otherwise, no other register changes,
and the pc advances by the instruction's width (one word) regardless of
the condition. -/
theorem WasmiV1.select_semantics (s : WasmiV1.V1State) (result condition : Nat)
    (if_true if_false : WasmiV1.ExecProvider) :
    ((WasmiV1.exec_select s result condition if_true if_false).regs result
        = if s.regs condition ≠ 0 then WasmiV1.load_provider s.regs if_true
          else WasmiV1.load_provider s.regs if_false)
    ∧ (∀ r, r ≠ result →
        (WasmiV1.exec_select s result condition if_true if_false).regs r
          = s.regs r)
    ∧ (WasmiV1.exec_select s result condition if_true if_false).pc
        = s.pc + 1 := by
  unfold WasmiV1.exec_select WasmiV1.setReg
  refine ⟨by simp, ?_, rfl⟩
  intro r hr
  simp [hr]

/-- Closed witness for C8: with condition cell `5` the select picks the
`if_true` immediate, leaves register `1` unchanged, and advances the pc. -/
theorem WasmiV1.select_semantics_witness :
    (1 : Nat) ≠ 0
    ∧ (WasmiV1.exec_select ⟨fun _ => 5, 10⟩ 0 2
        (WasmiV1.ExecProvider.immediate 7)
        (WasmiV1.ExecProvider.immediate 9)).regs 1 = 5 := by
  have h := WasmiV1.select_semantics ⟨fun _ => 5, 10⟩ 0 2
    (WasmiV1.ExecProvider.immediate 7) (WasmiV1.ExecProvider.immediate 9)
  exact ⟨by decide, h.2.1 1 (by decide)⟩

/-- C4: for every indirect call, an out-of-range table index traps
`TableAccessOutOfBounds`; otherwise a null element traps
`IndirectCallToNull`; otherwise a deduplicated-signature mismatch traps
`BadSignature`; otherwise the callee is handed over for dispatch — with
the checks performed in exactly that order. -/
theorem WasmiV1.call_indirect_checks (table : WasmiV1.Table) (expected : Nat)
    (indexCell : Wasmi.UntypedVal) :
    (table.length ≤ indexCell.lo32 →
      WasmiV1.exec_call_indirect table expected indexCell
        = Except.error Wasmi.TrapCode.TableAccessOutOfBounds)
    ∧ ∀ h : indexCell.lo32 < table.length,
        (table.get ⟨indexCell.lo32, h⟩ = none →
          WasmiV1.exec_call_indirect table expected indexCell
            = Except.error Wasmi.TrapCode.IndirectCallToNull)
        ∧ ∀ callee, table.get ⟨indexCell.lo32, h⟩ = some callee →
            (callee.signature ≠ expected →
              WasmiV1.exec_call_indirect table expected indexCell
                = Except.error Wasmi.TrapCode.BadSignature)
            ∧ (callee.signature = expected →
              WasmiV1.exec_call_indirect table expected indexCell
                = Except.ok callee) := by
  unfold WasmiV1.exec_call_indirect WasmiV1.tableGet
  constructor
  · intro hge
    have hnot : ¬ indexCell.lo32 < table.length := by omega
    simp only [dif_neg hnot]
  · intro h
    simp only [dif_pos h]
    constructor
    · intro hnone
      rw [hnone]
    · intro callee hsome
      rw [hsome]
      constructor
      · intro hne
        simp only [if_pos hne]
      · intro heq
        have hnn : ¬ callee.signature ≠ expected := by
          intro hc; exact hc heq
        simp only [if_neg hnn]

/-- Closed witness for C4: a two-element table whose slot `0` holds a
function of the expected signature dispatches that callee. -/
theorem WasmiV1.call_indirect_checks_witness :
    (Wasmi.UntypedVal.lo32 0) < ([some ⟨3, true⟩, none] : WasmiV1.Table).length
    ∧ WasmiV1.exec_call_indirect [some ⟨3, true⟩, none] 3 0
        = Except.ok ⟨3, true⟩ := by
  have h := WasmiV1.call_indirect_checks [some ⟨3, true⟩, none] 3 0
  have hlt : (Wasmi.UntypedVal.lo32 0)
      < ([some ⟨3, true⟩, none] : WasmiV1.Table).length := by decide
  refine ⟨hlt, ?_⟩
  exact (((h.2 hlt).2 ⟨3, true⟩ rfl).2 rfl)

/-- C7: every `memory.grow` denied by the configured maximum or the
resource limiter writes `u32::MAX` (`0xFFFF_FFFF`) into its result
register, leaves the linear memory unchanged, raises no trap (the
kernel is infallible), and execution continues at the next instruction;
no other register changes. -/
theorem WasmiV1.memory_grow_denied (limiterAllows : Bool)
    (s : WasmiV1.GrowState) (result : Nat) (amount : WasmiV1.ExecProvider)
    (hdeny :
      s.mem.maxPages
          < s.mem.pages + (WasmiV1.load_provider s.regs amount).lo32
        ∨ limiterAllows = false) :
    ((WasmiV1.exec_memory_grow limiterAllows s result amount).regs result
        = 2 ^ 32 - 1)
    ∧ (WasmiV1.exec_memory_grow limiterAllows s result amount).mem = s.mem
    ∧ (WasmiV1.exec_memory_grow limiterAllows s result amount).pc = s.pc + 1
    ∧ ∀ r, r ≠ result →
        (WasmiV1.exec_memory_grow limiterAllows s result amount).regs r
          = s.regs r := by
  have hmax : (2 ^ 32 - 1) % 2 ^ 32 = 2 ^ 32 - 1 :=
    Nat.mod_eq_of_lt (by norm_num)
  have key : WasmiV1.exec_memory_grow limiterAllows s result amount
      = { regs := WasmiV1.setReg s.regs result
            (Wasmi.UntypedVal.ofU32 (2 ^ 32 - 1))
          pc := s.pc + 1
          mem := s.mem } := by
    simp only [WasmiV1.exec_memory_grow, WasmiV1.memoryGrow]
    rcases hdeny with hover | hlim
    · rw [if_neg (show ¬ s.mem.pages
          + (WasmiV1.load_provider s.regs amount).lo32
            ≤ s.mem.maxPages by omega)]
    · subst hlim
      by_cases hle :
          s.mem.pages + (WasmiV1.load_provider s.regs amount).lo32
            ≤ s.mem.maxPages
      · rw [if_pos hle, if_neg (by simp)]
      · rw [if_neg hle]
  rw [key]
  refine ⟨?_, rfl, rfl, ?_⟩
  · simp [WasmiV1.setReg, Wasmi.UntypedVal.ofU32, hmax]
  · intro r hr
    simp [WasmiV1.setReg, hr]

/-- Closed witness for C7: growing a one-page memory with maximum one
page by one page is denied; the result register receives `0xFFFF_FFFF`
and the memory is unchanged. -/
theorem WasmiV1.memory_grow_denied_witness :
    ((⟨1, 1⟩ : WasmiV1.MemInst).maxPages
        < (⟨1, 1⟩ : WasmiV1.MemInst).pages
            + (WasmiV1.load_provider (fun _ => 1)
                (WasmiV1.ExecProvider.immediate 1)).lo32
      ∨ (true = false))
    ∧ (WasmiV1.exec_memory_grow true ⟨fun _ => 0, 4, ⟨1, 1⟩⟩ 0
        (WasmiV1.ExecProvider.immediate 1)).regs 0 = 2 ^ 32 - 1
    ∧ (WasmiV1.exec_memory_grow true ⟨fun _ => 0, 4, ⟨1, 1⟩⟩ 0
        (WasmiV1.ExecProvider.immediate 1)).mem = ⟨1, 1⟩ := by
  have hd : ((⟨1, 1⟩ : WasmiV1.MemInst).maxPages
      < (⟨1, 1⟩ : WasmiV1.MemInst).pages
          + (WasmiV1.load_provider (fun _ => 1)
              (WasmiV1.ExecProvider.immediate 1)).lo32
    ∨ (true = false)) := by
    left
    decide
  have h := WasmiV1.memory_grow_denied true ⟨fun _ => 0, 4, ⟨1, 1⟩⟩ 0
    (WasmiV1.ExecProvider.immediate 1) (by left; decide)
  exact ⟨hd, h.1, h.2.1⟩

namespace Wasmi

/-- Converts a signed 32-bit value into its cell bit pattern.
Modelled from the spec (section 3, Untyped Value): `UntypedVal::from(i32)`
stores the two's-complement `u32` pattern zero-extended into the cell. -/
def UntypedVal.ofI32 (v : Int) : UntypedVal := (v % (2 ^ 32 : Int)).toNat

/-- Converts a signed 64-bit value into its cell bit pattern.
Modelled from the spec (section 3, Untyped Value): `UntypedVal::from(i64)`
stores the two's-complement `u64` pattern in the cell. -/
def UntypedVal.ofI64 (v : Int) : UntypedVal := (v % (2 ^ 64 : Int)).toNat

/-- The effective shift amount taken by the 32-bit shift/rotate kernels
from their right-hand cell.  Modelled from the spec (section 8,
"Shift/rotate amount is taken modulo the bitsize of the operand type"):
the `wasmi_core` kernels mask the `u32` view of the amount by the
bitsize. -/
def i32ShiftAmountUsed (rhs : UntypedVal) : Nat := rhs.lo32 % 32

/-- The effective shift amount taken by the 64-bit shift/rotate kernels
from their right-hand cell.  Modelled from the spec, see
`i32ShiftAmountUsed`. -/
def i64ShiftAmountUsed (rhs : UntypedVal) : Nat := rhs % 2 ^ 64 % 64

/-- The `i32.shl` kernel, anchoring `i32ShiftAmountUsed`.
Modelled from the spec, see `i32ShiftAmountUsed`. -/
def UntypedVal.i32_shl (lhs rhs : UntypedVal) : UntypedVal :=
  UntypedVal.ofU32 ((lhs.lo32 <<< i32ShiftAmountUsed rhs) % 2 ^ 32)

/-- Translation-time folding of a constant `i32` shift amount.
Translated from `impl WasmInteger for i32`, `as_shift_amount`, in
`src/crates/wasmi/src/engine/translator/utils.rs`:
`(self % 32) as i16` — the Rust `%` on signed integers is the truncated
remainder, `Int.tmod`. -/
def as_shift_amount_i32 (v : Int) : Int := Int.tmod v 32

/-- Translation-time folding of a constant `u32` shift amount.
Translated from `impl WasmInteger for u32`, `as_shift_amount`:
`(self % 32) as i16`. -/
def as_shift_amount_u32 (v : Nat) : Nat := v % 32

/-- Translation-time folding of a constant `i64` shift amount.
Translated from `impl WasmInteger for i64`, `as_shift_amount`:
`(self % 64) as i16`. -/
def as_shift_amount_i64 (v : Int) : Int := Int.tmod v 64

/-- Translation-time folding of a constant `u64` shift amount.
Translated from `impl WasmInteger for u64`, `as_shift_amount`:
`(self % 64) as i16`. -/
def as_shift_amount_u64 (v : Nat) : Nat := v % 64

theorem tmod_emod_self (v m : Int) : (Int.tmod v m) % m = v % m := by
  conv_rhs => rw [← Int.tdiv_add_tmod v m]
  rw [Int.add_comm, Int.add_mul_emod_self_left]

end Wasmi

/-- C6: for every i32/i64 shift or rotate and every shift-amount operand
value `v` (including negative signed values), the effective shift amount
used equals `v` modulo the bitsize of the operand type, a value in
`[0, bitsize - 1]`; this also holds for shift amounts folded into the
instruction encoding at translation time via `as_shift_amount`, whose
encoded `i16` travels back into a cell through
`UntypedVal::from(T::from(rhs))` in `Executor::execute_shift_by`. -/
theorem Wasmi.shift_amount_modulo (v32 v64 : Int) (u32v u64v : Nat)
    (rhs32 rhs64 : Wasmi.UntypedVal) :
    (Wasmi.i32ShiftAmountUsed
        (Wasmi.UntypedVal.ofI32 (Wasmi.as_shift_amount_i32 v32))
          = (v32 % 32).toNat
      ∧ (v32 % 32).toNat < 32)
    ∧ (Wasmi.i64ShiftAmountUsed
        (Wasmi.UntypedVal.ofI64 (Wasmi.as_shift_amount_i64 v64))
          = (v64 % 64).toNat
      ∧ (v64 % 64).toNat < 64)
    ∧ Wasmi.i32ShiftAmountUsed
        (Wasmi.UntypedVal.ofU32 (Wasmi.as_shift_amount_u32 u32v))
          = u32v % 32
    ∧ Wasmi.i64ShiftAmountUsed
        (Wasmi.UntypedVal.ofI64 ((Wasmi.as_shift_amount_u64 u64v : Nat) : Int))
          = u64v % 64
    ∧ Wasmi.i32ShiftAmountUsed rhs32 = rhs32.lo32 % 32
    ∧ Wasmi.i32ShiftAmountUsed rhs32 < 32
    ∧ Wasmi.i64ShiftAmountUsed rhs64 < 64 := by
  refine ⟨⟨?_, by omega⟩, ⟨?_, by omega⟩, ?_, ?_, rfl, ?_, ?_⟩
  · have key := Wasmi.tmod_emod_self v32 32
    simp only [Wasmi.i32ShiftAmountUsed, Wasmi.UntypedVal.ofI32,
      Wasmi.UntypedVal.lo32, Wasmi.as_shift_amount_i32]
    omega
  · have key := Wasmi.tmod_emod_self v64 64
    simp only [Wasmi.i64ShiftAmountUsed, Wasmi.UntypedVal.ofI64,
      Wasmi.as_shift_amount_i64]
    omega
  · simp only [Wasmi.i32ShiftAmountUsed, Wasmi.UntypedVal.ofU32,
      Wasmi.UntypedVal.lo32, Wasmi.as_shift_amount_u32]
    omega
  · simp only [Wasmi.i64ShiftAmountUsed, Wasmi.UntypedVal.ofI64,
      Wasmi.as_shift_amount_u64]
    omega
  · simp only [Wasmi.i32ShiftAmountUsed]
    omega
  · simp only [Wasmi.i64ShiftAmountUsed]
    omega

namespace Wasmi

/-- One explicit arm of the runtime-signature `instr_prime` match in
`Executor::execute` (`src/crates/wasmi/src/engine/executor/instrs.rs`):
the opcode variant's name, whether the arm XORs the constant with the
bit pattern of the primary register operand
(`self.get_register(lhs_or_input).to_bits() ^ CONST`), and the
constant. -/
structure PrimeArm where
  variantName : String
  xorsOperand : Bool
  const : Nat
  deriving DecidableEq, Repr

/-- The value an arm mixes into the runtime signature, given the bit
pattern of its primary register operand.  Translated from the arms of
the `instr_prime` match: operand-carrying arms compute
`get_register(reg).to_bits() ^ CONST`, the rest produce `CONST`. -/
def armMixValue (arm : PrimeArm) (operandBits : Nat) : Nat :=
  if arm.xorsOperand then Nat.xor operandBits arm.const else arm.const

/-- The constant of the catch-all arm of the `instr_prime` match
(`_ => 0xf360371a61b48ca1`), shared by every opcode variant without a
dedicated arm. -/
def primeCatchAll : Nat := 0xf360371a61b48ca1

/-- The 426 explicit arms of the `instr_prime` match in
`Executor::execute`, in source order.  Translated one-to-one from
`src/crates/wasmi/src/engine/executor/instrs.rs` lines 114-1174. -/
def primeTable : List PrimeArm := [
  PrimeArm.mk "Const32" false 0xe3a461c24c1edf67,
  PrimeArm.mk "I64Const32" false 0x93e0632ef59fbf8d,
  PrimeArm.mk "F64Const32" false 0xcf96777f6bf48827,
  PrimeArm.mk "Register" false 0xa1a9bcb9fec5fdfb,
  PrimeArm.mk "Register2" false 0xbee08b06e6ab17f5,
  PrimeArm.mk "Register3" false 0xb448b4a7d84f751f,
  PrimeArm.mk "RegisterList" false 0xb918e0472d8c224f,
  PrimeArm.mk "CallIndirectParams" false 0xbf382b4acfe7644b,
  PrimeArm.mk "CallIndirectParamsImm16" false 0xd853e6a184c25f0d,
  PrimeArm.mk "Trap" false 0xb18d650b9f5998a7,
  PrimeArm.mk "ConsumeFuel" false 0xe6118441cda42713,
  PrimeArm.mk "Return" false 0xc8b8b1c1bcbd90e5,
  PrimeArm.mk "ReturnReg" false 0xbaab8e9341e08dbf,
  PrimeArm.mk "ReturnReg2" false 0xa73d1157b48ca275,
  PrimeArm.mk "ReturnReg3" false 0xa6ffa6328ec1eb81,
  PrimeArm.mk "ReturnImm32" false 0x83307e10c33705a3,
  PrimeArm.mk "ReturnI64Imm32" false 0xe8a6034d312d2135,
  PrimeArm.mk "ReturnF64Imm32" false 0xdc28177292727dc9,
  PrimeArm.mk "ReturnSpan" false 0xda75d553c9a0933b,
  PrimeArm.mk "ReturnMany" false 0xa5084225f2090f95,
  PrimeArm.mk "ReturnNez" false 0xe31a3fb6dd7f310d,
  PrimeArm.mk "ReturnNezReg" false 0xbfd53817fb0381e7,
  PrimeArm.mk "ReturnNezReg2" false 0xd85809e11f54d745,
  PrimeArm.mk "ReturnNezImm32" false 0xddb81fb1a74a83b1,
  PrimeArm.mk "ReturnNezI64Imm32" false 0x860254a7c93ec93f,
  PrimeArm.mk "ReturnNezF64Imm32" false 0xb2ee1c9ad5f914bb,
  PrimeArm.mk "ReturnNezSpan" false 0xec3158e4f69f44df,
  PrimeArm.mk "ReturnNezMany" false 0xc6cdd0d8f17fe649,
  PrimeArm.mk "Branch" false 0xef66bf425478625b,
  PrimeArm.mk "BranchCmpFallback" false 0x87d943ccc553c97f,
  PrimeArm.mk "BranchI32And" true 0xf16d67d2a7dbc15b,
  PrimeArm.mk "BranchI32AndImm" true 0xd97e76e4a08a4169,
  PrimeArm.mk "BranchI32Or" true 0xac6e6dcc9eb6cbff,
  PrimeArm.mk "BranchI32OrImm" true 0xa36564ae5f8bcf13,
  PrimeArm.mk "BranchI32Xor" true 0xa3fb8b494d435729,
  PrimeArm.mk "BranchI32XorImm" true 0xd8a580b0d15cf0ab,
  PrimeArm.mk "BranchI32AndEqz" true 0xc118754f6fd4adc1,
  PrimeArm.mk "BranchI32AndEqzImm" true 0xa90fbb32f7b47dc7,
  PrimeArm.mk "BranchI32OrEqz" true 0xa1bf533d0d3f0635,
  PrimeArm.mk "BranchI32OrEqzImm" true 0xfe99000769fe6ddd,
  PrimeArm.mk "BranchI32XorEqz" true 0xe2ade8751fc2e9a3,
  PrimeArm.mk "BranchI32XorEqzImm" true 0xc2c831b19dd7b0d3,
  PrimeArm.mk "BranchI32Eq" true 0xa9504bf5d4a47f69,
  PrimeArm.mk "BranchI32EqImm" true 0xcc68c4fcdd5df33b,
  PrimeArm.mk "BranchI32Ne" true 0xc574d8a05da369d3,
  PrimeArm.mk "BranchI32NeImm" true 0xcad08b87db831f77,
  PrimeArm.mk "BranchI32LtS" true 0xc590acad04f1f7b9,
  PrimeArm.mk "BranchI32LtSImm" true 0xd4d918a2cfb5323d,
  PrimeArm.mk "BranchI32LtU" true 0xc4999a7e79065d73,
  PrimeArm.mk "BranchI32LtUImm" true 0xf4fbdab953a405df,
  PrimeArm.mk "BranchI32LeS" true 0x98a04abe0fa4ce01,
  PrimeArm.mk "BranchI32LeSImm" true 0xa756dc299bd21ea7,
  PrimeArm.mk "BranchI32LeU" true 0xebe5a83153067f95,
  PrimeArm.mk "BranchI32LeUImm" true 0xd6adc84185c3b835,
  PrimeArm.mk "BranchI32GtS" true 0xc77aef230f5cb5c1,
  PrimeArm.mk "BranchI32GtSImm" true 0xb288abe58caf78fd,
  PrimeArm.mk "BranchI32GtU" true 0xdd85783639dea14b,
  PrimeArm.mk "BranchI32GtUImm" true 0xc95d435e3bd01389,
  PrimeArm.mk "BranchI32GeS" true 0xe448369b7242bd3b,
  PrimeArm.mk "BranchI32GeSImm" true 0xd3ed1490c07aec79,
  PrimeArm.mk "BranchI32GeU" true 0xcbdfc0da7497aca9,
  PrimeArm.mk "BranchI32GeUImm" true 0xd01255cca5331a55,
  PrimeArm.mk "BranchI64Eq" true 0xd224c9cfe6c84099,
  PrimeArm.mk "BranchI64EqImm" true 0xb1f5e1ce9cb796ed,
  PrimeArm.mk "BranchI64Ne" true 0xa015db66e4480f37,
  PrimeArm.mk "BranchI64NeImm" true 0xc9534063141f1b6d,
  PrimeArm.mk "BranchI64LtS" true 0xf3c68e18c0fc1c3b,
  PrimeArm.mk "BranchI64LtSImm" true 0xfaadf3a5cd945423,
  PrimeArm.mk "BranchI64LtU" true 0xe12e4e46df02fc2f,
  PrimeArm.mk "BranchI64LtUImm" true 0xb3476ce898e10f3d,
  PrimeArm.mk "BranchI64LeS" true 0xfb1cbfc1097a9473,
  PrimeArm.mk "BranchI64LeSImm" true 0xb4167d6222fadaf7,
  PrimeArm.mk "BranchI64LeU" true 0xb2932efcea953cab,
  PrimeArm.mk "BranchI64LeUImm" true 0x821f8f708d1f974f,
  PrimeArm.mk "BranchI64GtS" true 0xde5463b08e9f4729,
  PrimeArm.mk "BranchI64GtSImm" true 0xd765407968c91f01,
  PrimeArm.mk "BranchI64GtU" true 0xe2c63c2c0678900b,
  PrimeArm.mk "BranchI64GtUImm" true 0xd035ff821066bb9d,
  PrimeArm.mk "BranchI64GeS" true 0xe49707e335868fa5,
  PrimeArm.mk "BranchI64GeSImm" true 0xf857874dc48a27e9,
  PrimeArm.mk "BranchI64GeU" true 0x8b3ce0fa63214359,
  PrimeArm.mk "BranchI64GeUImm" true 0x93f90f4418d24385,
  PrimeArm.mk "BranchF32Eq" true 0x8647b33a7b8d4ea9,
  PrimeArm.mk "BranchF32Ne" true 0x9efcbece1096b201,
  PrimeArm.mk "BranchF32Lt" true 0xb2ab8327611d4843,
  PrimeArm.mk "BranchF32Le" true 0xfdb94010ae03ebad,
  PrimeArm.mk "BranchF32Gt" true 0xc74489c6752ef2e3,
  PrimeArm.mk "BranchF32Ge" true 0xb2588add33b6dc8d,
  PrimeArm.mk "BranchF64Eq" true 0xb0f911188eef530b,
  PrimeArm.mk "BranchF64Ne" true 0xb3a436328722e3af,
  PrimeArm.mk "BranchF64Lt" true 0x996ae1e7999d71a5,
  PrimeArm.mk "Copy" false 0xf476618f2886dc2f,
  PrimeArm.mk "Copy2" false 0x81e0ef8904c1cfd5,
  PrimeArm.mk "CopyImm32" false 0xaafc797a3f40deeb,
  PrimeArm.mk "CopyI64Imm32" false 0xe6dddd163140692f,
  PrimeArm.mk "CopyF64Imm32" false 0x976bb2d6ce6f3ccf,
  PrimeArm.mk "CopySpan" false 0x84f01169f85f4fff,
  PrimeArm.mk "CopySpanNonOverlapping" false 0xb32e9b533c4e6e29,
  PrimeArm.mk "CopyMany" false 0xe63c8f65639ebb8f,
  PrimeArm.mk "CopyManyNonOverlapping" false 0xeeb9a195160ac2d7,
  PrimeArm.mk "ReturnCallInternal0" false 0xec2eb6bd5a5fc313,
  PrimeArm.mk "ReturnCallInternal" false 0xb833133b9b99a663,
  PrimeArm.mk "ReturnCallImported0" false 0xe14f7c46f5f83b6b,
  PrimeArm.mk "ReturnCallImported" false 0x84e5c91bee77ebb7,
  PrimeArm.mk "ReturnCallIndirect0" false 0xc5aadca828024d75,
  PrimeArm.mk "ReturnCallIndirect" false 0x814db79997981ca9,
  PrimeArm.mk "CallInternal0" false 0xfbb357448a8642c3,
  PrimeArm.mk "CallInternal" false 0xab093cfe38b97547,
  PrimeArm.mk "CallImported0" false 0xe866c937356994c5,
  PrimeArm.mk "CallImported" false 0xa9b3f7092e7cd01b,
  PrimeArm.mk "CallIndirect0" false 0x89fdcc51af24bead,
  PrimeArm.mk "CallIndirect" false 0xbda3e8601077a917,
  PrimeArm.mk "Select" false 0xcab5aefcb578755f,
  PrimeArm.mk "SelectImm32" false 0xe640723b1c13c87f,
  PrimeArm.mk "SelectI64Imm32" false 0xdcdfa8f4a8043ef7,
  PrimeArm.mk "SelectF64Imm32" false 0x9bbf27a9403e07e3,
  PrimeArm.mk "RefFunc" false 0xd1cd7a96bb99ad23,
  PrimeArm.mk "TableGet" false 0x90f6c6bb3c114319,
  PrimeArm.mk "TableGetImm" false 0x9595b2107e23cb21,
  PrimeArm.mk "TableSize" false 0xd396ced918e61bc5,
  PrimeArm.mk "TableSet" false 0xf5b649b2b404d197,
  PrimeArm.mk "TableSetAt" false 0xcdebf347b50872d3,
  PrimeArm.mk "TableCopy" false 0xf422dd12f6642265,
  PrimeArm.mk "TableCopyTo" false 0xfe2f83b88da7fa03,
  PrimeArm.mk "TableCopyFrom" false 0xfe202c3d504679e1,
  PrimeArm.mk "TableCopyFromTo" false 0x9d9ebedd147ee0c3,
  PrimeArm.mk "TableCopyExact" false 0x9dcc8c066927a9db,
  PrimeArm.mk "TableCopyToExact" false 0xbe7fae07ca7d32ef,
  PrimeArm.mk "TableCopyFromExact" false 0x88d7ecf054f2807d,
  PrimeArm.mk "TableCopyFromToExact" false 0xff641f66fa9a63d3,
  PrimeArm.mk "TableInit" false 0x82bb6ff383050763,
  PrimeArm.mk "TableInitTo" false 0x932d2a71ef983f85,
  PrimeArm.mk "TableInitFrom" false 0xd8cdfe120accedcf,
  PrimeArm.mk "TableInitFromTo" false 0xebca0cc0890416c5,
  PrimeArm.mk "TableInitExact" false 0xc626dd2b280ae6e3,
  PrimeArm.mk "TableInitToExact" false 0xdace86517a593a71,
  PrimeArm.mk "TableInitFromExact" false 0xe5c82cb9a1eac895,
  PrimeArm.mk "TableInitFromToExact" false 0xe5450bc5eb2d7631,
  PrimeArm.mk "TableFill" false 0xe4e6730feefdc50f,
  PrimeArm.mk "TableFillAt" false 0xc23bd8546b888c6b,
  PrimeArm.mk "TableFillExact" false 0x98f8babdc99204f3,
  PrimeArm.mk "TableFillAtExact" false 0x8e49dd000adf0689,
  PrimeArm.mk "TableGrow" false 0x9e61c8c958c6b891,
  PrimeArm.mk "TableGrowImm" false 0x927de647f4278045,
  PrimeArm.mk "ElemDrop" false 0xbc4deb8b398e8a67,
  PrimeArm.mk "DataDrop" false 0xaf73214c7ebdae49,
  PrimeArm.mk "MemorySize" false 0xc99e9ec6fd30df43,
  PrimeArm.mk "MemoryGrow" false 0x902226df112aa763,
  PrimeArm.mk "MemoryGrowBy" false 0xded192652730b3f3,
  PrimeArm.mk "MemoryCopy" false 0xf84118c356d104eb,
  PrimeArm.mk "MemoryCopyTo" false 0xf734ad61d9950a83,
  PrimeArm.mk "MemoryCopyFrom" false 0x9a5467d705c1581d,
  PrimeArm.mk "MemoryCopyFromTo" false 0xc087075594f5ef01,
  PrimeArm.mk "MemoryCopyExact" false 0xa300dfa09a5404db,
  PrimeArm.mk "MemoryCopyToExact" false 0xdecaec4c2f332687,
  PrimeArm.mk "MemoryCopyFromExact" false 0xd973b50e06e7190d,
  PrimeArm.mk "MemoryCopyFromToExact" false 0xd09c8ab6e9e82db3,
  PrimeArm.mk "MemoryFill" false 0x853e90844bc5b9c1,
  PrimeArm.mk "MemoryFillAt" false 0xba3e3f0c5214daf9,
  PrimeArm.mk "MemoryFillImm" false 0xebb50579d7dc30cb,
  PrimeArm.mk "MemoryFillExact" false 0x82bf6b083bb7ab07,
  PrimeArm.mk "MemoryFillAtImm" false 0xb721067ce69b7335,
  PrimeArm.mk "MemoryFillAtExact" false 0xafa4befd04378e05,
  PrimeArm.mk "MemoryFillImmExact" false 0x81e2eca79e7e30c1,
  PrimeArm.mk "MemoryFillAtImmExact" false 0xf4c5f89614b61c1b,
  PrimeArm.mk "MemoryInit" false 0xa30ffa4319eca43b,
  PrimeArm.mk "MemoryInitTo" false 0x8bc41f3bd9e53945,
  PrimeArm.mk "MemoryInitFrom" false 0x922c8e0448c76ad1,
  PrimeArm.mk "MemoryInitFromTo" false 0xdc74c7e86a7d9527,
  PrimeArm.mk "MemoryInitExact" false 0xe8e1aabd32798baf,
  PrimeArm.mk "MemoryInitToExact" false 0xa4612593e32593ab,
  PrimeArm.mk "MemoryInitFromExact" false 0xe6576301838fe52f,
  PrimeArm.mk "MemoryInitFromToExact" false 0xb2b93bf089ba4b27,
  PrimeArm.mk "GlobalGet" false 0x8d923111b80b5901,
  PrimeArm.mk "GlobalSet" false 0xe498f909f87cf3d7,
  PrimeArm.mk "GlobalSetI32Imm16" false 0xbeceb62a094167cf,
  PrimeArm.mk "GlobalSetI64Imm16" false 0xb255daab1ca25487,
  PrimeArm.mk "I32Load" false 0xdf5b9b6fa80f3631,
  PrimeArm.mk "I32LoadAt" false 0xf78ad97d27554aab,
  PrimeArm.mk "I32LoadOffset16" false 0x8d191c3c9f983b7d,
  PrimeArm.mk "I64Load" false 0xcde7973deae4d139,
  PrimeArm.mk "I64LoadAt" false 0xc07cc699947471df,
  PrimeArm.mk "I64LoadOffset16" false 0xbfd2b00e2b3c39d5,
  PrimeArm.mk "F32Load" false 0xef1fbab218f04407,
  PrimeArm.mk "F32LoadAt" false 0xa8306192cd73002d,
  PrimeArm.mk "F32LoadOffset16" false 0xed0992f6c6239c7f,
  PrimeArm.mk "F64Load" false 0xf6689ac5b352c02f,
  PrimeArm.mk "F64LoadAt" false 0x97f205959c2a3d0b,
  PrimeArm.mk "F64LoadOffset16" false 0x94fbb4628a79462b,
  PrimeArm.mk "I32Load8s" false 0xfbb04e5f0a302d7b,
  PrimeArm.mk "I32Load8sAt" false 0x8e95f3bd70e298e7,
  PrimeArm.mk "I32Load8sOffset16" false 0xb736c7c8935178f5,
  PrimeArm.mk "I32Load8u" false 0xf0e219ca1d327f63,
  PrimeArm.mk "I32Load8uAt" false 0xc5ca3a6dc78a1a5d,
  PrimeArm.mk "I32Load8uOffset16" false 0xc1932ac6c5cd54ff,
  PrimeArm.mk "I32Load16s" false 0xe74c775c66d1dac7,
  PrimeArm.mk "I32Load16sAt" false 0xbc3c7a6541752f39,
  PrimeArm.mk "I32Load16sOffset16" false 0x98c1f9f35f8f6c6f,
  PrimeArm.mk "I32Load16u" false 0xdc6866c6770da481,
  PrimeArm.mk "I32Load16uAt" false 0xf194f68751968d29,
  PrimeArm.mk "I32Load16uOffset16" false 0xfc6373feac795559,
  PrimeArm.mk "I64Load8s" false 0xe727f7f48695f6ad,
  PrimeArm.mk "I64Load8sAt" false 0x9fccd4f7bd3f283f,
  PrimeArm.mk "I64Load8sOffset16" false 0xe865fdf1a1c55585,
  PrimeArm.mk "I64Load8u" false 0xf78018cfa4de9cf9,
  PrimeArm.mk "I64Load8uAt" false 0xed4846b1ee465189,
  PrimeArm.mk "I64Load8uOffset16" false 0xeb9c4fdbd7a69a7d,
  PrimeArm.mk "I64Load16s" false 0xce757e747c1781e1,
  PrimeArm.mk "I64Load16sAt" false 0x8f96d62fc6381b5b,
  PrimeArm.mk "I64Load16sOffset16" false 0x81747c9166be968d,
  PrimeArm.mk "I64Load16u" false 0x9d169d9c81872e09,
  PrimeArm.mk "I64Load16uAt" false 0x9ff242a4f7087a3b,
  PrimeArm.mk "I64Load16uOffset16" false 0x8a58890d2d2e95fd,
  PrimeArm.mk "I64Load32s" false 0xc7b0ed9c7dd80abb,
  PrimeArm.mk "I64Load32sAt" false 0xd22e5e85c5df8b81,
  PrimeArm.mk "I64Load32sOffset16" false 0xfe197c431899c773,
  PrimeArm.mk "I64Load32u" false 0xec214adc8d89b335,
  PrimeArm.mk "I64Load32uAt" false 0x8546452698268a41,
  PrimeArm.mk "I64Load32uOffset16" false 0x900023566f7219db,
  PrimeArm.mk "I32Store" false 0x89b4696626e6200f,
  PrimeArm.mk "I32StoreOffset16" false 0xa9624220aa646c45,
  PrimeArm.mk "I32StoreOffset16Imm16" false 0xd375c7c6e96da7eb,
  PrimeArm.mk "I32StoreAt" false 0x9507335cdf40a30f,
  PrimeArm.mk "I32StoreAtImm16" false 0xb124dcb1efb5a56f,
  PrimeArm.mk "I32Store8" false 0xb40f3d40e5cbc63f,
  PrimeArm.mk "I32Store8Offset16" false 0xb7784c5f610fa6b9,
  PrimeArm.mk "I32Store8Offset16Imm" false 0xb1b94e6edc784d75,
  PrimeArm.mk "I32Store8At" false 0xc114292b9396fca1,
  PrimeArm.mk "I32Store8AtImm" false 0xf958f99a724d3fa9,
  PrimeArm.mk "I32Store16" false 0xf4db4b8b777ba485,
  PrimeArm.mk "I32Store16Offset16" false 0x917265d951560b9f,
  PrimeArm.mk "I32Store16Offset16Imm" false 0x8e59e4b976ddd5c9,
  PrimeArm.mk "I32Store16At" false 0x85e34459fca92a63,
  PrimeArm.mk "I32Store16AtImm" false 0xffca87a7a28dcaaf,
  PrimeArm.mk "I64Store" false 0xaa0cfbf1401da505,
  PrimeArm.mk "I64StoreOffset16" false 0xde11b832af36e2c3,
  PrimeArm.mk "I64StoreOffset16Imm16" false 0x93a03ca4c630054d,
  PrimeArm.mk "I64StoreAt" false 0x8b7be36a892dbe9f,
  PrimeArm.mk "I64StoreAtImm16" false 0xa7164db75f5ffc79,
  PrimeArm.mk "I64Store8" false 0xb16fc3bd7fcf8229,
  PrimeArm.mk "I64Store8Offset16" false 0xf5324129bf7f4299,
  PrimeArm.mk "I64Store8Offset16Imm" false 0xeb1df0108fb325c1,
  PrimeArm.mk "I64Store8At" false 0xcc72df888ac47c3f,
  PrimeArm.mk "I64Store8AtImm" false 0x90e2c84d2be4491b,
  PrimeArm.mk "I64Store16" false 0xa670b61daad1097f,
  PrimeArm.mk "I64Store16Offset16" false 0xd09b793649e2dc69,
  PrimeArm.mk "I64Store16Offset16Imm" false 0xc5733c19fee00329,
  PrimeArm.mk "I64Store16At" false 0xc3471d0e7d859cdd,
  PrimeArm.mk "I64Store16AtImm" false 0xa27e4cfa22b0d101,
  PrimeArm.mk "I64Store32" false 0xacade9332186dab9,
  PrimeArm.mk "I64Store32Offset16" false 0xb5777e453e6429dd,
  PrimeArm.mk "I64Store32Offset16Imm16" false 0xc8435df9b5285e43,
  PrimeArm.mk "I64Store32At" false 0xb1cb0f6ea058bbbb,
  PrimeArm.mk "I64Store32AtImm16" false 0x8f79394f20bbda89,
  PrimeArm.mk "F32Store" false 0xd6df58b0ab76e99f,
  PrimeArm.mk "F32StoreOffset16" false 0xff1461bc14215f77,
  PrimeArm.mk "F32StoreAt" false 0xd2f62bd6fa3c90b9,
  PrimeArm.mk "F64Store" false 0xda484e6b7bd8d5db,
  PrimeArm.mk "F64StoreOffset16" false 0xac6256a3ca2605cb,
  PrimeArm.mk "F64StoreAt" false 0xe366beba3742040b,
  PrimeArm.mk "I32Eq" true 0x9aa2499f95dc3711,
  PrimeArm.mk "I32EqImm16" true 0x92ce6da978fdc40f,
  PrimeArm.mk "I64Eq" true 0xda860a17cb3b1a8b,
  PrimeArm.mk "I64EqImm16" true 0x89c423624314bf89,
  PrimeArm.mk "I32Ne" true 0xcbad0daca146769f,
  PrimeArm.mk "I32NeImm16" true 0xdca831c7fde0f85f,
  PrimeArm.mk "I64Ne" true 0xb0b2865912833697,
  PrimeArm.mk "I64NeImm16" true 0xbafcb515ea4df971,
  PrimeArm.mk "I32LtS" true 0xbfbff0c826a235f1,
  PrimeArm.mk "I32LtU" true 0x9081189b58e72897,
  PrimeArm.mk "I32LtSImm16" true 0x96d3c1dc900e1187,
  PrimeArm.mk "I32LtUImm16" true 0x9025ddff9d4de1b9,
  PrimeArm.mk "I64LtS" true 0xffe594b2eb58493d,
  PrimeArm.mk "I64LtU" true 0x9181211dcc10809b,
  PrimeArm.mk "I64LtSImm16" true 0xebbe15881dcd9e57,
  PrimeArm.mk "I64LtUImm16" true 0xfd542ad322324a27,
  PrimeArm.mk "I32GtS" true 0xe36a0bdacb5debf3,
  PrimeArm.mk "I32GtU" true 0xa5deeacd3be1c44b,
  PrimeArm.mk "I32GtSImm16" true 0x9a7f06186b3795c3,
  PrimeArm.mk "I32GtUImm16" true 0xaaf1e009bd26fd7b,
  PrimeArm.mk "I64GtS" true 0xc548cf95ce91a7b5,
  PrimeArm.mk "I64GtU" true 0xa68907e0fab9fb93,
  PrimeArm.mk "I64GtSImm16" true 0xf62c848e8eef17e9,
  PrimeArm.mk "I64GtUImm16" true 0x8a5c73b85ba194e1,
  PrimeArm.mk "I32LeS" true 0xbc5f6381dd176bb1,
  PrimeArm.mk "I32LeU" true 0xf7f780c2e00e18af,
  PrimeArm.mk "I32LeSImm16" true 0xc79fde79bd40aa77,
  PrimeArm.mk "I32LeUImm16" true 0xf9cc6a0ad9269149,
  PrimeArm.mk "I64LeS" true 0xc7fac5fcb8f8ed55,
  PrimeArm.mk "I64LeU" true 0xc1560dd513285d29,
  PrimeArm.mk "I64LeSImm16" true 0x99c89d3bbb73545d,
  PrimeArm.mk "I64LeUImm16" true 0xa3524cb19ca06bb5,
  PrimeArm.mk "I32GeS" true 0x98bef5ced76c7645,
  PrimeArm.mk "I32GeU" true 0xd53ed9432d2a8143,
  PrimeArm.mk "I32GeSImm16" true 0xfee355988dee53db,
  PrimeArm.mk "I32GeUImm16" true 0xbb62bd7c6348e5c3,
  PrimeArm.mk "I64GeS" true 0xd8f40b0c313c453d,
  PrimeArm.mk "I64GeU" true 0x98bfaac3f19897e1,
  PrimeArm.mk "I64GeSImm16" true 0x8956eaaa98c2e647,
  PrimeArm.mk "I64GeUImm16" true 0xe11e8b930ba0afed,
  PrimeArm.mk "F32Eq" true 0xc3587b028ec7b7d7,
  PrimeArm.mk "F64Eq" true 0x90fa962604933679,
  PrimeArm.mk "F32Ne" true 0xe8b028b8a40b6323,
  PrimeArm.mk "F64Ne" true 0xe511c632ed75d0ad,
  PrimeArm.mk "F32Lt" true 0xafe8adc3497d922f,
  PrimeArm.mk "F64Lt" true 0xa24d51fe3b08563d,
  PrimeArm.mk "F32Le" true 0xa9470d623de1df2f,
  PrimeArm.mk "F64Le" true 0xe5e889a7f2d74d67,
  PrimeArm.mk "F32Gt" true 0x8cbe5aa7efd2dac5,
  PrimeArm.mk "F64Gt" true 0xa2b5a501d74cc69b,
  PrimeArm.mk "F32Ge" true 0x9103bfb43045fc5b,
  PrimeArm.mk "F64Ge" true 0xe4832a9c5a4a0741,
  PrimeArm.mk "I32Clz" true 0xd0b363eee33e2a75,
  PrimeArm.mk "I64Clz" true 0xbb13e80b90e6d539,
  PrimeArm.mk "I32Ctz" true 0xa867670e58678389,
  PrimeArm.mk "I64Ctz" true 0x8ad83f5db31d4957,
  PrimeArm.mk "I32Popcnt" true 0xd8ad8c4a45f7cd09,
  PrimeArm.mk "I64Popcnt" true 0xb9603f856bc14e5b,
  PrimeArm.mk "I32Add" true 0xa1f888c0cefc7b6d,
  PrimeArm.mk "I64Add" true 0xba1adc988a80490f,
  PrimeArm.mk "I32AddImm16" true 0x8bc5e0c56da6ee3d,
  PrimeArm.mk "I64AddImm16" true 0xf75f1d741e812869,
  PrimeArm.mk "I32Sub" true 0xf095a662a345025f,
  PrimeArm.mk "I64Sub" true 0xb251e2585fd105c7,
  PrimeArm.mk "I32Mul" true 0xc36cfc74fa61f2b3,
  PrimeArm.mk "I64Mul" true 0xe9fe8ad570b71a99,
  PrimeArm.mk "I32MulImm16" true 0x99c04a0680397c59,
  PrimeArm.mk "I64MulImm16" true 0xa461c2db76abc31f,
  PrimeArm.mk "I32DivS" true 0xd8e9ed1b036c4299,
  PrimeArm.mk "I64DivS" true 0xc18a29741fec7821,
  PrimeArm.mk "I32DivU" true 0x98f910b2a2344797,
  PrimeArm.mk "I64DivU" true 0xe4e5f443dafb6781,
  PrimeArm.mk "I32RemS" true 0x9f03cbda2aa5fa45,
  PrimeArm.mk "I64RemS" true 0xccf3ffab51808eaf,
  PrimeArm.mk "I32RemU" true 0xc543d9e99bfe04db,
  PrimeArm.mk "I64RemU" true 0x9f9e5bd14453abf7,
  PrimeArm.mk "I32And" true 0xda40caeb3a552221,
  PrimeArm.mk "I32AndEqz" true 0xdae0c4aaf21a2375,
  PrimeArm.mk "I32AndEqzImm16" true 0xe3b2a67a5da4fa6b,
  PrimeArm.mk "I32AndImm16" true 0x8698e382452765f1,
  PrimeArm.mk "I64And" true 0xf96e3bc1640f67cd,
  PrimeArm.mk "I64AndImm16" true 0xcb4730c03868c6c9,
  PrimeArm.mk "I32Or" true 0xfe54c1a4cc88dbfd,
  PrimeArm.mk "I32OrEqz" true 0x81c4ae5533789a77,
  PrimeArm.mk "I32OrEqzImm16" true 0xd5a79e8c5ff0d4f7,
  PrimeArm.mk "I32OrImm16" true 0x907c4d22bec999ad,
  PrimeArm.mk "I64Or" true 0xdc758f1076325dcf,
  PrimeArm.mk "I64OrImm16" true 0xcea9b6298da032eb,
  PrimeArm.mk "I32Xor" true 0x820cea6beee5132b,
  PrimeArm.mk "I32XorEqz" true 0xfb5646a229eba923,
  PrimeArm.mk "I32XorEqzImm16" true 0xa3d2eee0dbef491f,
  PrimeArm.mk "I32XorImm16" true 0xe0802ae028ddf527,
  PrimeArm.mk "I64Xor" true 0xcf8b3ddb8044776f,
  PrimeArm.mk "I64XorImm16" true 0xa84e47947f7723ad,
  PrimeArm.mk "I32Shl" true 0x997deb70c648fa15,
  PrimeArm.mk "I64Shl" true 0x80f706f88d804a25,
  PrimeArm.mk "I32ShrU" true 0x949b3946cd09a095,
  PrimeArm.mk "I64ShrU" true 0xbc8d8ae8fafe0cb5,
  PrimeArm.mk "I32ShrS" true 0xe9925858193a7679,
  PrimeArm.mk "I64ShrS" true 0xfb846cd977392cf3,
  PrimeArm.mk "I32Rotl" true 0xdfd1ecfe45e3e365,
  PrimeArm.mk "I64Rotl" true 0xc2c0280be48f6e2b,
  PrimeArm.mk "I32Rotr" true 0xfce450167abfef91,
  PrimeArm.mk "I64Rotr" true 0xd35af32013838db5,
  PrimeArm.mk "F32Abs" true 0xcd5c2fff391d82cb,
  PrimeArm.mk "F64Abs" true 0xc4736057bf6ce827,
  PrimeArm.mk "F32Neg" true 0xd366f959bf938435,
  PrimeArm.mk "F64Neg" true 0x8c01a158032456c5,
  PrimeArm.mk "F32Ceil" true 0xf5684f567a1e5c81,
  PrimeArm.mk "F64Ceil" true 0xbc6729b56b5bf64f,
  PrimeArm.mk "F32Floor" true 0xc3397446971c7b1b,
  PrimeArm.mk "F64Floor" true 0xc21648fabc149443,
  PrimeArm.mk "F32Trunc" true 0x930c87d1457a0b2f,
  PrimeArm.mk "F64Trunc" true 0xc457947a5515448d,
  PrimeArm.mk "F32Nearest" true 0xdcbd8018d58a0133,
  PrimeArm.mk "F64Nearest" true 0xe719d229d8dc9d11,
  PrimeArm.mk "F32Sqrt" true 0x8e031a9674797f6f,
  PrimeArm.mk "F64Sqrt" true 0xede241e1bdbf8add,
  PrimeArm.mk "F32Add" true 0xc0246fd5a4fa2569,
  PrimeArm.mk "F64Add" true 0xae61b186b8d627b1,
  PrimeArm.mk "F32Sub" true 0xf37398a1108c36cb,
  PrimeArm.mk "F64Sub" true 0xaaf86176c0dc89f5,
  PrimeArm.mk "F32Mul" true 0xbe5eb79b83c0c7b1,
  PrimeArm.mk "F64Mul" true 0x9b200d1c1640bf0d,
  PrimeArm.mk "F32Div" true 0xd22d29503c878647,
  PrimeArm.mk "F64Div" true 0x91b08c54e524bb09,
  PrimeArm.mk "F32Min" true 0xf83af276dd4b617f,
  PrimeArm.mk "F64Min" true 0xeb5d7d82375f7be7,
  PrimeArm.mk "F32Max" true 0x8f4d06f60f1c84fb,
  PrimeArm.mk "F64Max" true 0xb24f6877be71ebd5,
  PrimeArm.mk "F32Copysign" true 0xec122620e993dfcd,
  PrimeArm.mk "F64Copysign" true 0xf27f1850006566c9,
  PrimeArm.mk "F32CopysignImm" true 0x94d19450082a4ce9,
  PrimeArm.mk "F64CopysignImm" true 0x84b094c8c0503805,
  PrimeArm.mk "I32WrapI64" true 0xd7348da1051ffdf5,
  PrimeArm.mk "I32TruncF32S" true 0xa8edf1813c31175b,
  PrimeArm.mk "I32TruncF32U" true 0xf980305a8ba3be0f,
  PrimeArm.mk "I32TruncF64S" true 0xb982c8f45dcd5731,
  PrimeArm.mk "I32TruncF64U" true 0x9ca1670d1e934f45,
  PrimeArm.mk "I64TruncF32S" true 0xeb2506c7a7cfe6f7,
  PrimeArm.mk "I64TruncF32U" true 0xa230e0381f36668d,
  PrimeArm.mk "I64TruncF64S" true 0xce02765ab94df325,
  PrimeArm.mk "I64TruncF64U" true 0xb39253799e21a72d,
  PrimeArm.mk "I32TruncSatF32S" true 0xa164fb50eec581d3,
  PrimeArm.mk "I32TruncSatF32U" true 0xabac89637bdb1d8f,
  PrimeArm.mk "I32TruncSatF64S" true 0xe8b8c4421046aedd,
  PrimeArm.mk "I32TruncSatF64U" true 0x91c87015a56a944d,
  PrimeArm.mk "I64TruncSatF32S" true 0xb909e169382afddd,
  PrimeArm.mk "I64TruncSatF32U" true 0xc6f884d2705bf2d3,
  PrimeArm.mk "I64TruncSatF64S" true 0xa5e8386963664fa3,
  PrimeArm.mk "I64TruncSatF64U" true 0xa43800f9e4975aff,
  PrimeArm.mk "I32Extend8S" true 0xdecfc0dc5cb809af,
  PrimeArm.mk "I32Extend16S" true 0xcdf6bb7756026125,
  PrimeArm.mk "I64Extend8S" true 0xb906176cee2380bf,
  PrimeArm.mk "I64Extend16S" true 0xf0382669ed7a55f1,
  PrimeArm.mk "I64Extend32S" true 0xb61b2de5652d06e9,
  PrimeArm.mk "F32DemoteF64" true 0xbf82e5dd4495233b,
  PrimeArm.mk "F64PromoteF32" true 0xf42a79d7ed7c17c,
  PrimeArm.mk "F32ConvertI32S" true 0x9e65030287165e29,
  PrimeArm.mk "F32ConvertI32U" true 0xe244f0acd2209f0b,
  PrimeArm.mk "F32ConvertI64S" true 0xd007d6d9333c7405,
  PrimeArm.mk "F32ConvertI64U" true 0xf31a7af87a7b7f61,
  PrimeArm.mk "F64ConvertI32S" true 0xbef1a0dfa7540b4d,
  PrimeArm.mk "F64ConvertI32U" true 0xa168200e59e18dcd,
  PrimeArm.mk "F64ConvertI64S" true 0xb3a2d5946ee565e3,
  PrimeArm.mk "F64ConvertI64U" true 0x92ad2f2873e8fbc5]

/-- Looks up the arm of an opcode variant by name. -/
def lookupArm (name : String) : Option PrimeArm :=
  primeTable.find? (fun arm => arm.variantName == name)

end Wasmi

/-- C2 counterexample: the `F64PromoteF32` arm mixes the constant
`0x0f42a79d7ed7c17c`, which is even — hence not an odd prime — and fits
in 60 bits, refuting the claim that every opcode variant (including
`F64PromoteF32`) has its own fixed 64-bit odd prime. -/
theorem Wasmi.f64_promote_const_not_odd_prime :
    Wasmi.lookupArm "F64PromoteF32"
        = some (Wasmi.PrimeArm.mk "F64PromoteF32" true 0xf42a79d7ed7c17c)
    ∧ (0xf42a79d7ed7c17c : Nat) % 2 = 0
    ∧ (0xf42a79d7ed7c17c : Nat) < 2 ^ 60
    ∧ ¬ Nat.Prime 0xf42a79d7ed7c17c := by
  refine ⟨by decide, by norm_num, by norm_num, ?_⟩
  intro hp
  have h2 : (2 : Nat) ∣ 0xf42a79d7ed7c17c := by norm_num
  rcases hp.eq_one_or_self_of_dvd 2 h2 with h | h <;> norm_num at h

set_option maxHeartbeats 4000000 in
set_option maxRecDepth 100000 in
/-- C2 (amended): for every instruction executed with runtime-signature
tracking enabled, the value mixed in is a fixed 64-bit constant assigned
per opcode-variant arm, XORed for operand-carrying arms with the 64-bit
bit pattern of the primary register operand (lhs or sole input); the
426 explicitly listed arms have pairwise distinct constants, each odd
with its top bit set — except `F64PromoteF32`, whose constant is even
and below `2^60` — and all opcode variants without a dedicated arm share
the odd catch-all constant `0xf360371a61b48ca1`. -/
theorem Wasmi.prime_table_shape :
    (∀ arm ∈ Wasmi.primeTable, arm.variantName ≠ "F64PromoteF32" →
        arm.const % 2 = 1 ∧ 2 ^ 63 ≤ arm.const ∧ arm.const < 2 ^ 64)
    ∧ (∀ arm ∈ Wasmi.primeTable, arm.variantName = "F64PromoteF32" →
        arm.const % 2 = 0 ∧ arm.const < 2 ^ 60)
    ∧ (Wasmi.primeTable.map Wasmi.PrimeArm.const).Nodup
    ∧ Wasmi.primeCatchAll % 2 = 1
    ∧ ∀ arm ∈ Wasmi.primeTable, ∀ operandBits : Nat,
        arm.xorsOperand = false →
          Wasmi.armMixValue arm operandBits = arm.const := by
  refine ⟨by decide, by decide, by decide, by decide, ?_⟩
  intro arm _ operandBits hno
  simp [Wasmi.armMixValue, hno]

set_option maxRecDepth 100000 in
/-- Closed witness for C2 (amended): the `Trap` arm is in the table and
its constant is odd with its top bit set. -/
theorem Wasmi.prime_table_shape_witness :
    Wasmi.PrimeArm.mk "Trap" false 0xb18d650b9f5998a7 ∈ Wasmi.primeTable
    ∧ (0xb18d650b9f5998a7 : Nat) % 2 = 1
    ∧ 2 ^ 63 ≤ (0xb18d650b9f5998a7 : Nat)
    ∧ (0xb18d650b9f5998a7 : Nat) < 2 ^ 64 := by
  have hmem : Wasmi.PrimeArm.mk "Trap" false 0xb18d650b9f5998a7
      ∈ Wasmi.primeTable := by decide
  have h := Wasmi.prime_table_shape.1 _ hmem (by decide)
  exact ⟨hmem, h.1, h.2.1, h.2.2⟩

namespace WasmiExec

/-- A new-IR register index (an `i16` in the source). -/
abbrev Reg := Int

/-- The modelled subset of the ~450-variant new-IR `Instruction` model:
a few executable instructions together with all eighteen
instruction-parameter words of the final dispatch arm of
`Executor::execute` (`src/crates/wasmi/src/engine/executor/instrs.rs`,
lines 2429-2446). -/
inductive Instr
  | Trap (trapCode : Wasmi.TrapCode)
  | ConsumeFuel (blockFuel : Nat)
  | Branch (offset : Int)
  | BranchI32Eq (lhs rhs : Reg) (offset : Int)
  | ReturnReg (value : Reg)
  | TableIndex (index : Nat)
  | MemoryIndex (index : Nat)
  | DataIndex (index : Nat)
  | ElemIndex (index : Nat)
  | Const32 (value : Nat)
  | I64Const32 (value : Nat)
  | F64Const32 (value : Nat)
  | BranchTableTarget (results : Int) (offset : Int)
  | BranchTableTargetNonOverlapping (results : Int) (offset : Int)
  | Register (reg : Reg)
  | Register2 (reg0 reg1 : Reg)
  | Register3 (reg0 reg1 reg2 : Reg)
  | RegisterAndImm32 (reg : Reg) (imm : Nat)
  | Imm16AndImm32 (imm16 : Nat) (imm32 : Nat)
  | RegisterSpan (head : Reg) (len : Nat)
  | RegisterList (reg0 reg1 reg2 : Reg)
  | CallIndirectParams (index : Reg) (table : Nat)
  | CallIndirectParamsImm16 (index : Nat) (table : Nat)
  deriving DecidableEq, Repr

/-- Recognizes the instruction-parameter words handled by the final
dispatch arm of `Executor::execute`, translated from its or-pattern
(`Instr::TableIndex {..} | ... | Instr::CallIndirectParamsImm16 {..}`). -/
def isParamWord : Instr → Bool
  | Instr.TableIndex _ => true
  | Instr.MemoryIndex _ => true
  | Instr.DataIndex _ => true
  | Instr.ElemIndex _ => true
  | Instr.Const32 _ => true
  | Instr.I64Const32 _ => true
  | Instr.F64Const32 _ => true
  | Instr.BranchTableTarget _ _ => true
  | Instr.BranchTableTargetNonOverlapping _ _ => true
  | Instr.Register _ => true
  | Instr.Register2 _ _ => true
  | Instr.Register3 _ _ _ => true
  | Instr.RegisterAndImm32 _ _ => true
  | Instr.Imm16AndImm32 _ _ => true
  | Instr.RegisterSpan _ _ => true
  | Instr.RegisterList _ _ _ => true
  | Instr.CallIndirectParams _ _ => true
  | Instr.CallIndirectParamsImm16 _ _ => true
  | _ => false

/-- The executor state of the modelled machine: frame registers, the
instruction pointer, the runtime signature accumulator of the store,
and the remaining fuel of the store. -/
structure State where
  regs : Reg → Wasmi.UntypedVal
  ip : Int
  sig : Nat
  fuel : Nat

/-- The `instr_prime` computation for the modelled subset, translated
arm by arm from the `instr_prime` match in `Executor::execute`
(constants exactly as in `primeTable`; variants without a dedicated arm
take the catch-all constant). -/
def instrPrime (s : State) : Instr → Nat
  | Instr.Trap _ => 0xb18d650b9f5998a7
  | Instr.ConsumeFuel _ => 0xe6118441cda42713
  | Instr.Branch _ => 0xef66bf425478625b
  | Instr.BranchI32Eq lhs _ _ => Nat.xor (s.regs lhs) 0xa9504bf5d4a47f69
  | Instr.ReturnReg _ => 0xbaab8e9341e08dbf
  | Instr.TableIndex _ => Wasmi.primeCatchAll
  | Instr.MemoryIndex _ => Wasmi.primeCatchAll
  | Instr.DataIndex _ => Wasmi.primeCatchAll
  | Instr.ElemIndex _ => Wasmi.primeCatchAll
  | Instr.Const32 _ => 0xe3a461c24c1edf67
  | Instr.I64Const32 _ => 0x93e0632ef59fbf8d
  | Instr.F64Const32 _ => 0xcf96777f6bf48827
  | Instr.BranchTableTarget _ _ => Wasmi.primeCatchAll
  | Instr.BranchTableTargetNonOverlapping _ _ => Wasmi.primeCatchAll
  | Instr.Register _ => 0xa1a9bcb9fec5fdfb
  | Instr.Register2 _ _ => 0xbee08b06e6ab17f5
  | Instr.Register3 _ _ _ => 0xb448b4a7d84f751f
  | Instr.RegisterAndImm32 _ _ => Wasmi.primeCatchAll
  | Instr.Imm16AndImm32 _ _ => Wasmi.primeCatchAll
  | Instr.RegisterSpan _ _ => Wasmi.primeCatchAll
  | Instr.RegisterList _ _ _ => 0xb918e0472d8c224f
  | Instr.CallIndirectParams _ _ => 0xbf382b4acfe7644b
  | Instr.CallIndirectParamsImm16 _ _ => 0xd853e6a184c25f0d

/-- The runtime-signature mixer.  Modelled from the spec (section 4.9):
`mix(x) = ((x XOR (x >> 27)) XOR ((x XOR (x >> 27)) << 23))
  * 0xdfd951778ea84a0f` with 64-bit wrapping shift and multiply. -/
def mix (x : Nat) : Nat :=
  let y := Nat.xor x (x >>> 27)
  Nat.xor y ((y <<< 23) % 2 ^ 64) * 0xdfd951778ea84a0f % 2 ^ 64

/-- Mixes a value into the runtime signature.  Modelled from the spec
(section 4.9, `sig ← mix(sig XOR v)`):
`StoreInner::update_runtime_signature` is not in the source tree. -/
def updateSig (sig v : Nat) : Nat := mix (Nat.xor sig v)

/-- The observable outcome of one or more iterations of the dispatch
loop of the modelled machine. -/
inductive Outcome
  | trapped (code : Wasmi.TrapCode) (sig : Nat)
  | returned (results : List Wasmi.UntypedVal) (sig : Nat)
  | next (s : State)

/-- One iteration of `Executor::execute`: fetch the word at `ip`, mix
the runtime signature, dispatch.  Translated from the dispatch match in
`src/crates/wasmi/src/engine/executor/instrs.rs`:
`Trap` from `execute_trap`, `ConsumeFuel` from `execute_consume_fuel`
(the store's fuel counter is modelled from spec section 5), `Branch`
and `BranchI32Eq` from spec section 4.2 (their kernels live in
`executor/instrs/branch.rs`, which is not in the source tree),
`ReturnReg` from spec section 4.3 as a root-frame return (kernel in
`executor/instrs/return_.rs`, not in the source tree), and the final
parameter-word arm from `invalid_instruction_word`, whose
`unreachable_unchecked!` macro is not in the source tree and is
modelled from spec sections 4.1 and 7 as raising the fatal
`UnreachableCodeReached` trap. -/
def stepF (prog : Int → Instr) (s : State) : Outcome :=
  let instr := prog s.ip
  let sig := updateSig s.sig (instrPrime s instr)
  match instr with
  | Instr.Trap code => Outcome.trapped code sig
  | Instr.ConsumeFuel blockFuel =>
      if s.fuel < blockFuel then Outcome.trapped Wasmi.TrapCode.OutOfFuel sig
      else Outcome.next { s with sig := sig, fuel := s.fuel - blockFuel,
                                 ip := s.ip + 1 }
  | Instr.Branch offset => Outcome.next { s with sig := sig, ip := s.ip + offset }
  | Instr.BranchI32Eq lhs rhs offset =>
      if (s.regs lhs).lo32 = (s.regs rhs).lo32 then
        Outcome.next { s with sig := sig, ip := s.ip + offset }
      else Outcome.next { s with sig := sig, ip := s.ip + 1 }
  | Instr.ReturnReg value => Outcome.returned [s.regs value] sig
  | Instr.TableIndex _ => Outcome.trapped Wasmi.TrapCode.UnreachableCodeReached sig
  | Instr.MemoryIndex _ => Outcome.trapped Wasmi.TrapCode.UnreachableCodeReached sig
  | Instr.DataIndex _ => Outcome.trapped Wasmi.TrapCode.UnreachableCodeReached sig
  | Instr.ElemIndex _ => Outcome.trapped Wasmi.TrapCode.UnreachableCodeReached sig
  | Instr.Const32 _ => Outcome.trapped Wasmi.TrapCode.UnreachableCodeReached sig
  | Instr.I64Const32 _ => Outcome.trapped Wasmi.TrapCode.UnreachableCodeReached sig
  | Instr.F64Const32 _ => Outcome.trapped Wasmi.TrapCode.UnreachableCodeReached sig
  | Instr.BranchTableTarget _ _ =>
      Outcome.trapped Wasmi.TrapCode.UnreachableCodeReached sig
  | Instr.BranchTableTargetNonOverlapping _ _ =>
      Outcome.trapped Wasmi.TrapCode.UnreachableCodeReached sig
  | Instr.Register _ => Outcome.trapped Wasmi.TrapCode.UnreachableCodeReached sig
  | Instr.Register2 _ _ =>
      Outcome.trapped Wasmi.TrapCode.UnreachableCodeReached sig
  | Instr.Register3 _ _ _ =>
      Outcome.trapped Wasmi.TrapCode.UnreachableCodeReached sig
  | Instr.RegisterAndImm32 _ _ =>
      Outcome.trapped Wasmi.TrapCode.UnreachableCodeReached sig
  | Instr.Imm16AndImm32 _ _ =>
      Outcome.trapped Wasmi.TrapCode.UnreachableCodeReached sig
  | Instr.RegisterSpan _ _ =>
      Outcome.trapped Wasmi.TrapCode.UnreachableCodeReached sig
  | Instr.RegisterList _ _ _ =>
      Outcome.trapped Wasmi.TrapCode.UnreachableCodeReached sig
  | Instr.CallIndirectParams _ _ =>
      Outcome.trapped Wasmi.TrapCode.UnreachableCodeReached sig
  | Instr.CallIndirectParamsImm16 _ _ =>
      Outcome.trapped Wasmi.TrapCode.UnreachableCodeReached sig

end WasmiExec

namespace WasmiExec

/-- The one-iteration dispatch relation of the modelled machine: one
rule per dispatch arm of `Executor::execute`, relating a pre-state to
the outcome of the iteration that fetches `prog s.ip`.  This is the
relational rendering of `stepF`. -/
inductive StepR (prog : Int → Instr) : State → Outcome → Prop
  | trap (s : State) (code : Wasmi.TrapCode)
      (h : prog s.ip = Instr.Trap code) :
      StepR prog s
        (Outcome.trapped code
          (updateSig s.sig (instrPrime s (Instr.Trap code))))
  | consumeFuelOk (s : State) (n : Nat)
      (h : prog s.ip = Instr.ConsumeFuel n) (hfuel : ¬ s.fuel < n) :
      StepR prog s
        (Outcome.next { s with
          sig := updateSig s.sig (instrPrime s (Instr.ConsumeFuel n)),
          fuel := s.fuel - n, ip := s.ip + 1 })
  | consumeFuelErr (s : State) (n : Nat)
      (h : prog s.ip = Instr.ConsumeFuel n) (hfuel : s.fuel < n) :
      StepR prog s
        (Outcome.trapped Wasmi.TrapCode.OutOfFuel
          (updateSig s.sig (instrPrime s (Instr.ConsumeFuel n))))
  | branch (s : State) (offset : Int)
      (h : prog s.ip = Instr.Branch offset) :
      StepR prog s
        (Outcome.next { s with
          sig := updateSig s.sig (instrPrime s (Instr.Branch offset)),
          ip := s.ip + offset })
  | branchI32EqTaken (s : State) (lhs rhs : Reg) (offset : Int)
      (h : prog s.ip = Instr.BranchI32Eq lhs rhs offset)
      (hc : (s.regs lhs).lo32 = (s.regs rhs).lo32) :
      StepR prog s
        (Outcome.next { s with
          sig := updateSig s.sig
            (instrPrime s (Instr.BranchI32Eq lhs rhs offset)),
          ip := s.ip + offset })
  | branchI32EqNotTaken (s : State) (lhs rhs : Reg) (offset : Int)
      (h : prog s.ip = Instr.BranchI32Eq lhs rhs offset)
      (hc : ¬ (s.regs lhs).lo32 = (s.regs rhs).lo32) :
      StepR prog s
        (Outcome.next { s with
          sig := updateSig s.sig
            (instrPrime s (Instr.BranchI32Eq lhs rhs offset)),
          ip := s.ip + 1 })
  | returnReg (s : State) (value : Reg)
      (h : prog s.ip = Instr.ReturnReg value) :
      StepR prog s
        (Outcome.returned [s.regs value]
          (updateSig s.sig (instrPrime s (Instr.ReturnReg value))))
  | paramWord (s : State) (i : Instr)
      (h : prog s.ip = i) (hp : isParamWord i = true) :
      StepR prog s
        (Outcome.trapped Wasmi.TrapCode.UnreachableCodeReached
          (updateSig s.sig (instrPrime s i)))

theorem stepR_iff_stepF (prog : Int → Instr) (s : State) (o : Outcome) :
    StepR prog s o ↔ stepF prog s = o := by
  constructor
  · intro h
    cases h with
    | trap code h => simp [stepF, h]
    | consumeFuelOk n h hfuel => simp [stepF, h, if_neg hfuel]
    | consumeFuelErr n h hfuel => simp [stepF, h, if_pos hfuel]
    | branch offset h => simp [stepF, h]
    | branchI32EqTaken lhs rhs offset h hc => simp [stepF, h, if_pos hc]
    | branchI32EqNotTaken lhs rhs offset h hc => simp [stepF, h, if_neg hc]
    | returnReg value h => simp [stepF, h]
    | paramWord i h hp =>
        cases i <;> simp [isParamWord] at hp <;> simp [stepF, h]
  · intro h
    subst h
    cases hi : prog s.ip with
    | Trap code =>
        have := @StepR.trap prog s code hi
        simpa [stepF, hi] using this
    | ConsumeFuel n =>
        by_cases hfuel : s.fuel < n
        · have := @StepR.consumeFuelErr prog s n hi hfuel
          simpa [stepF, hi, if_pos hfuel] using this
        · have := @StepR.consumeFuelOk prog s n hi hfuel
          simpa [stepF, hi, if_neg hfuel] using this
    | Branch offset =>
        have := @StepR.branch prog s offset hi
        simpa [stepF, hi] using this
    | BranchI32Eq lhs rhs offset =>
        by_cases hc : (s.regs lhs).lo32 = (s.regs rhs).lo32
        · have := @StepR.branchI32EqTaken prog s lhs rhs offset hi hc
          simpa [stepF, hi, if_pos hc] using this
        · have := @StepR.branchI32EqNotTaken prog s lhs rhs offset hi hc
          simpa [stepF, hi, if_neg hc] using this
    | ReturnReg value =>
        have := @StepR.returnReg prog s value hi
        simpa [stepF, hi] using this
    | TableIndex index =>
        have := @StepR.paramWord prog s (Instr.TableIndex index) hi rfl
        simpa [stepF, hi] using this
    | MemoryIndex index =>
        have := @StepR.paramWord prog s (Instr.MemoryIndex index) hi rfl
        simpa [stepF, hi] using this
    | DataIndex index =>
        have := @StepR.paramWord prog s (Instr.DataIndex index) hi rfl
        simpa [stepF, hi] using this
    | ElemIndex index =>
        have := @StepR.paramWord prog s (Instr.ElemIndex index) hi rfl
        simpa [stepF, hi] using this
    | Const32 value =>
        have := @StepR.paramWord prog s (Instr.Const32 value) hi rfl
        simpa [stepF, hi] using this
    | I64Const32 value =>
        have := @StepR.paramWord prog s (Instr.I64Const32 value) hi rfl
        simpa [stepF, hi] using this
    | F64Const32 value =>
        have := @StepR.paramWord prog s (Instr.F64Const32 value) hi rfl
        simpa [stepF, hi] using this
    | BranchTableTarget results offset =>
        have := @StepR.paramWord prog s
          (Instr.BranchTableTarget results offset) hi rfl
        simpa [stepF, hi] using this
    | BranchTableTargetNonOverlapping results offset =>
        have := @StepR.paramWord prog s
          (Instr.BranchTableTargetNonOverlapping results offset) hi rfl
        simpa [stepF, hi] using this
    | Register reg =>
        have := @StepR.paramWord prog s (Instr.Register reg) hi rfl
        simpa [stepF, hi] using this
    | Register2 reg0 reg1 =>
        have := @StepR.paramWord prog s (Instr.Register2 reg0 reg1) hi rfl
        simpa [stepF, hi] using this
    | Register3 reg0 reg1 reg2 =>
        have := @StepR.paramWord prog s
          (Instr.Register3 reg0 reg1 reg2) hi rfl
        simpa [stepF, hi] using this
    | RegisterAndImm32 reg imm =>
        have := @StepR.paramWord prog s
          (Instr.RegisterAndImm32 reg imm) hi rfl
        simpa [stepF, hi] using this
    | Imm16AndImm32 imm16 imm32 =>
        have := @StepR.paramWord prog s
          (Instr.Imm16AndImm32 imm16 imm32) hi rfl
        simpa [stepF, hi] using this
    | RegisterSpan head len =>
        have := @StepR.paramWord prog s
          (Instr.RegisterSpan head len) hi rfl
        simpa [stepF, hi] using this
    | RegisterList reg0 reg1 reg2 =>
        have := @StepR.paramWord prog s
          (Instr.RegisterList reg0 reg1 reg2) hi rfl
        simpa [stepF, hi] using this
    | CallIndirectParams index table =>
        have := @StepR.paramWord prog s
          (Instr.CallIndirectParams index table) hi rfl
        simpa [stepF, hi] using this
    | CallIndirectParamsImm16 index table =>
        have := @StepR.paramWord prog s
          (Instr.CallIndirectParamsImm16 index table) hi rfl
        simpa [stepF, hi] using this

end WasmiExec

/-- C1: whenever the dispatch loop fetches a parameter word (a
`TableIndex`/`MemoryIndex`/`DataIndex`/`ElemIndex`/`Const32`/
`I64Const32`/`F64Const32`/`BranchTableTarget`/`Register`/`Register2`/
`Register3`/`RegisterAndImm32`/`Imm16AndImm32`/`RegisterSpan`/
`RegisterList`/`CallIndirectParams`/`CallIndirectParamsImm16` variant)
as a top-level dispatch target, the iteration raises the
`UnreachableCodeReached` trap — the loop yields that error rather than
exhibiting undefined behaviour. -/
theorem WasmiExec.param_word_unreachable (prog : Int → WasmiExec.Instr)
    (s : WasmiExec.State) (i : WasmiExec.Instr)
    (hp : WasmiExec.isParamWord i = true) (hfetch : prog s.ip = i) :
    WasmiExec.stepF prog s
      = WasmiExec.Outcome.trapped Wasmi.TrapCode.UnreachableCodeReached
          (WasmiExec.updateSig s.sig (WasmiExec.instrPrime s i)) :=
  (WasmiExec.stepR_iff_stepF prog s _).mp
    (WasmiExec.StepR.paramWord s i hfetch hp)

/-- Closed witness for C1: dispatching the parameter word `Const32 5`
raises `UnreachableCodeReached`. -/
theorem WasmiExec.param_word_unreachable_witness :
    WasmiExec.isParamWord (WasmiExec.Instr.Const32 5) = true
    ∧ WasmiExec.stepF (fun _ => WasmiExec.Instr.Const32 5)
        { regs := fun _ => 0, ip := 0, sig := 0, fuel := 0 }
        = WasmiExec.Outcome.trapped Wasmi.TrapCode.UnreachableCodeReached
            (WasmiExec.updateSig 0
              (WasmiExec.instrPrime
                { regs := fun _ => 0, ip := 0, sig := 0, fuel := 0 }
                (WasmiExec.Instr.Const32 5))) :=
  ⟨rfl, WasmiExec.param_word_unreachable _ _ _ rfl rfl⟩
